import Mathlib

/-!
Verification development for the Discord live-backup repository
(DiscordLiveBackup.py and ChannelStatsLogger.py).

The Python source is shallowly embedded: pure string manipulation becomes
functions on `List Char` / `String`; code that can raise becomes
`Except String`-valued functions whose `.error` constructor carries the
Python exception; mutable dictionaries become association lists updated in
Python insertion order; the aliasing produced by `dict.fromkeys(ids, {})`
(one shared dictionary object for every key) is modelled by a structure
holding the key list and the single shared association list.
-/

set_option maxRecDepth 4000

/-- Association-list lookup, the embedding of Python `dict.get(key)`. -/
def dGet {α β : Type} [BEq α] : List (α × β) → α → Option β
  | [], _ => none
  | (k, v) :: rest, key => if k == key then some v else dGet rest key

/-- Association-list update, the embedding of Python `dict[key] = value` /
`dict.update(\x7bkey: value\x7d)`: replace in place, else append (insertion
order preserved, as for Python dictionaries). -/
def dUpdate {α β : Type} [BEq α] : List (α × β) → α → β → List (α × β)
  | [], key, v => [(key, v)]
  | (k, w) :: rest, key, v =>
    if k == key then (k, v) :: rest else (k, w) :: dUpdate rest key v

/-- Does `pat` occur at the head of `s`? -/
def leadsWith : List Char → List Char → Bool
  | [], _ => true
  | _ :: _, [] => false
  | p :: ps, c :: cs => p == c && leadsWith ps cs

/-- Does `pat` occur anywhere in `s`? (Substring test, as Python `pat in s`.) -/
def hasOccur (pat : List Char) : List Char → Bool
  | [] => pat.isEmpty
  | c :: cs => leadsWith pat (c :: cs) || hasOccur pat cs

/-- Substring test on `String`, the embedding of Python `pat in s`. -/
def hasOccurStr (pat s : String) : Bool := hasOccur pat.data s.data

/-- Replace the first occurrence of `pat` in `s` by `repl`: the embedding of
Python `s.replace(pat, repl, 1)` for non-empty `pat`. -/
def replaceFirst (pat repl : List Char) : List Char → List Char
  | [] => []
  | c :: cs =>
    if leadsWith pat (c :: cs) && !pat.isEmpty then
      repl ++ List.drop pat.length (c :: cs)
    else c :: replaceFirst pat repl cs

/-- Fuelled worker for `replaceAll`; fuel is the length of the scanned list. -/
def replaceAllAux (pat repl : List Char) : Nat → List Char → List Char
  | _, [] => []
  | 0, s => s
  | fuel + 1, c :: cs =>
    if leadsWith pat (c :: cs) && !pat.isEmpty then
      repl ++ replaceAllAux pat repl fuel (List.drop pat.length (c :: cs))
    else c :: replaceAllAux pat repl fuel cs

/-- Replace every occurrence of `pat` in `s` by `repl`, left to right and
non-overlapping: the embedding of Python `s.replace(pat, repl)`. -/
def replaceAll (pat repl s : List Char) : List Char :=
  replaceAllAux pat repl s.length s

/-- Digits to number, the embedding of `int()` applied to an all-digit string. -/
def digitsToNat (ds : List Char) : Nat :=
  ds.foldl (fun a c => a * 10 + (c.toNat - 48)) 0

/-- Strip leading and trailing spaces (Python `int()` tolerates surrounding
whitespace). -/
def stripSpaces (s : List Char) : List Char :=
  ((s.dropWhile (fun c => c == ' ')).reverse.dropWhile (fun c => c == ' ')).reverse

/-- The embedding of Python `int(s)`: optional sign and a non-empty digit run
after stripping whitespace, otherwise `ValueError`. -/
def pyIntParse (s : List Char) : Except String Int :=
  match stripSpaces s with
  | '-' :: ds =>
    if !ds.isEmpty && ds.all Char.isDigit then Except.ok (-(digitsToNat ds : Int))
    else Except.error "ValueError: invalid literal for int() with base 10"
  | '+' :: ds =>
    if !ds.isEmpty && ds.all Char.isDigit then Except.ok ((digitsToNat ds : Int))
    else Except.error "ValueError: invalid literal for int() with base 10"
  | ds =>
    if !ds.isEmpty && ds.all Char.isDigit then Except.ok ((digitsToNat ds : Int))
    else Except.error "ValueError: invalid literal for int() with base 10"

/-- Match the regex `<@\d+>` at the head of the input (a raw user-mention
token); on success return the matched token and the remainder. -/
def mentionAt : List Char → Option (List Char × List Char)
  | '<' :: '@' :: rest =>
    let ds := rest.takeWhile (fun c => c.isDigit)
    match ds, rest.drop ds.length with
    | [], _ => none
    | _ :: _, '>' :: r => some ('<' :: '@' :: (ds ++ ['>']), r)
    | _ :: _, _ => none
  | _ => none

/-- Match the regex `<@&\d+>` at the head of the input (a raw role-mention
token); on success return the matched token and the remainder. -/
def roleMentionAt : List Char → Option (List Char × List Char)
  | '<' :: '@' :: '&' :: rest =>
    let ds := rest.takeWhile (fun c => c.isDigit)
    match ds, rest.drop ds.length with
    | [], _ => none
    | _ :: _, '>' :: r => some ('<' :: '@' :: '&' :: (ds ++ ['>']), r)
    | _ :: _, _ => none
  | _ => none

/-- Fuelled scanner behind `re.findall`: left-to-right, non-overlapping,
resuming after each match. -/
def findallAux (f : List Char → Option (List Char × List Char)) :
    Nat → List Char → List (List Char)
  | 0, _ => []
  | _ + 1, [] => []
  | fuel + 1, c :: cs =>
    match f (c :: cs) with
    | some (m, r) => m :: findallAux f fuel r
    | none => findallAux f fuel cs

/-- The embedding of `re.findall("<@\d+>", s)` (DiscordLiveBackup.py line 730). -/
def findallUser (s : List Char) : List (List Char) := findallAux mentionAt s.length s

/-- The embedding of `re.findall("<@&\d+>", s)` (DiscordLiveBackup.py line 738). -/
def findallRole (s : List Char) : List (List Char) := findallAux roleMentionAt s.length s

/-- User id carried by a matched user-mention token (`m[2:-1]` as an integer). -/
def uidOfMention (m : List Char) : Nat := digitsToNat ((m.drop 2).dropLast)

/-- Role id carried by a matched role-mention token (`m[3:-1]` as an integer). -/
def roleIdOfMention (m : List Char) : Nat := digitsToNat ((m.drop 3).dropLast)

/-- Static environment read by `BackupBotMaster._clean`:
`botMentions` embeds `self.bots` restricted to what `_clean` reads of it
(target user id to `bot.user.mention`); `targetRoles` embeds
`self.target_guild.get_role` (source role id to role name); and
`backupRoleMentions` embeds `self.roles` (backup role name to `role.mention`). -/
structure CleanEnv where
  botMentions : List (Nat × String)
  targetRoles : List (Nat × String)
  backupRoleMentions : List (String × String)

/-- The user-mention pass of `_clean` (DiscordLiveBackup.py lines 730-735):
for each match, if the mentioned user id is a swarm target, replace the
first occurrence of the token by that bot user's mention. -/
def cleanUsersGo (bm : List (Nat × String)) :
    List (List Char) → List Char → List Char
  | [], cont => cont
  | m :: ms, cont =>
    cleanUsersGo bm ms
      (match dGet bm (uidOfMention m) with
       | some mention => replaceFirst m mention.data cont
       | none => cont)

/-- The user-mention pass applied to a message: matches are computed once on
the incoming content, as in the source. -/
def cleanUsersStage (env : CleanEnv) (x : String) : List Char :=
  cleanUsersGo env.botMentions (findallUser x.data) x.data

/-- The role-mention pass of `_clean` (DiscordLiveBackup.py lines 738-744):
for each match, `self.target_guild.get_role(role_id)` is dereferenced with
`.name`; a `None` result raises `AttributeError` (modelled as `.error`).
When the backup guild has a role of the same name the first occurrence of
the token is replaced by its mention, otherwise the token is left as is. -/
def cleanRolesGo (tr : List (Nat × String)) (bm : List (String × String)) :
    List (List Char) → List Char → Except String (List Char)
  | [], cont => Except.ok cont
  | m :: ms, cont =>
    match dGet tr (roleIdOfMention m) with
    | none => Except.error "AttributeError: NoneType object has no attribute name"
    | some rname =>
      cleanRolesGo tr bm ms
        (match dGet bm rname with
         | some rm => replaceFirst m rm.data cont
         | none => cont)

/-- The role-mention pass applied to the output of the user pass. -/
def cleanRolesStage (env : CleanEnv) (u : List Char) : Except String (List Char) :=
  cleanRolesGo env.targetRoles env.backupRoleMentions (findallRole u) u

/-- The broadcast-tag pass of `_clean` (DiscordLiveBackup.py line 747):
`content.replace("@here", "@/here").replace("@everyone", "@/everyone")`. -/
def neuterTags (s : List Char) : List Char :=
  replaceAll "@everyone".data "@/everyone".data (replaceAll "@here".data "@/here".data s)

/-- The embedding of `BackupBotMaster._clean` (DiscordLiveBackup.py lines
727-749): user-mention substitution, role-mention substitution, then
broadcast-tag neutering; `.error` carries the `AttributeError` raised when a
role-mention id does not resolve in the source guild. -/
def cleanContent (env : CleanEnv) (x : String) : Except String String :=
  match cleanRolesStage env (cleanUsersStage env x) with
  | Except.error e => Except.error e
  | Except.ok r => Except.ok (String.mk (neuterTags r))

/-- Boolean `isOk` discriminator for the transform result. -/
def isOkE {α : Type} : Except String α → Bool
  | Except.ok _ => true
  | Except.error _ => false

/-- One outbound network identity, restricted to the attributes the
replication code reads: `bot.user.id`, `bot.user.name`, `bot.user.mention`. -/
structure BotIdentity where
  uid : Nat
  name : String
  mention : String
deriving DecidableEq

/-- The identity router, the embedding of
`self.bots.get(message.author.id, self)` (DiscordLiveBackup.py lines 621 and
662): the roster maps source user ids to dedicated identities, and absence
falls back to the master identity. -/
def routeIdentity (roster : List (Nat × BotIdentity)) (master : BotIdentity)
    (uid : Nat) : BotIdentity :=
  (dGet roster uid).getD master

/-- One distinct emoji reaction of the source message together with the users
who applied it, in iteration order of `r.users()`. -/
structure Reaction where
  emoji : String
  users : List Nat

/-- Environment of the reaction-replication pass: the roster, the master
identity, whether an identity can apply a given emoji in the backup guild
(`false` embeds the `discord.HTTPException` / `discord.NotFound` raised by
`add_reaction`), and the name of the shared unknown-emoji placeholder. -/
structure ReactEnv where
  roster : List (Nat × BotIdentity)
  master : BotIdentity
  canRender : Nat → String → Bool
  placeholderEmoji : String

/-- Mutable state threaded through the reaction loops of
`BackupBotMaster.__send` (DiscordLiveBackup.py lines 653-688):
`reactedUnknown` embeds the per-message `REACTED_UNKNOWN` list,
`unknownReactions` and `unknownReactors` the two tally dictionaries, and
`added` records every successful `add_reaction` as (acting bot user id,
emoji). -/
structure ReactState where
  reactedUnknown : List Nat
  unknownReactions : List (String × List String)
  unknownReactors : List (String × Nat)
  added : List (Nat × String)
deriving DecidableEq

/-- Empty tallies at the start of the reaction pass. -/
def initReactState : ReactState :=
  { reactedUnknown := [], unknownReactions := [], unknownReactors := [], added := [] }

/-- The `add_reaction` attempt and its `except` handler (DiscordLiveBackup.py
lines 674-688) for one acting identity: on failure the placeholder is added
only when the acting identity is the master and has not yet fallen back for
this reaction; a failure of the placeholder add itself propagates. -/
def attemptReaction (env : ReactEnv) (e : String) (st : ReactState)
    (br bru : Bool) (bot : BotIdentity) : Except String (ReactState × Bool × Bool) :=
  if env.canRender bot.uid e then
    Except.ok ({ st with added := st.added ++ [(bot.uid, e)] }, br, bru)
  else
    if st.reactedUnknown.contains bot.uid && bot.uid != env.master.uid then
      Except.ok (st, br, bru)
    else
      let st1 := { st with reactedUnknown := st.reactedUnknown ++ [bot.uid] }
      if bot.uid == env.master.uid && !bru then
        if env.canRender bot.uid env.placeholderEmoji then
          let tally := dUpdate st1.unknownReactions e
            ((dGet st1.unknownReactions e).getD [] ++ [bot.mention])
          Except.ok
            ({ st1 with
                added := st1.added ++ [(bot.uid, env.placeholderEmoji)],
                unknownReactions := tally },
              br, true)
        else Except.error "HTTPException: placeholder reaction failed"
      else Except.ok (st1, br, bru)

/-- Body of the inner user loop (DiscordLiveBackup.py lines 661-688) for one
reacting user: route the user, and when the acting identity carries the
master's name bump the per-user `unknown_reactors` tally before attempting
the reaction, skipping the attempt if the master already reacted with this
emoji (`BOT_REACTED`). -/
def reactUserStep (env : ReactEnv) (e : String) (st : ReactState)
    (br bru : Bool) (u : Nat) : Except String (ReactState × Bool × Bool) :=
  let bot := routeIdentity env.roster env.master u
  if bot.name = env.master.name then
    let tally := dUpdate st.unknownReactors e ((dGet st.unknownReactors e).getD 0 + 1)
    let st1 := { st with unknownReactors := tally }
    if br then Except.ok (st1, br, bru)
    else attemptReaction env e st1 true bru bot
  else attemptReaction env e st br bru bot

/-- Inner loop over the users of one reaction, threading `BOT_REACTED` and
`BOT_REACTED_UNKNOWN`. -/
def reactUsers (env : ReactEnv) (e : String) :
    List Nat → ReactState → Bool → Bool → Except String ReactState
  | [], st, _, _ => Except.ok st
  | u :: us, st, br, bru =>
    match reactUserStep env e st br bru u with
    | Except.error er => Except.error er
    | Except.ok (st1, br1, bru1) => reactUsers env e us st1 br1 bru1

/-- Outer loop over the reactions of the source message
(DiscordLiveBackup.py lines 657-688); the per-reaction flags reset for every
reaction while the tallies and `REACTED_UNKNOWN` persist. -/
def reactAll (env : ReactEnv) : List Reaction → ReactState → Except String ReactState
  | [], st => Except.ok st
  | r :: rs, st =>
    match reactUsers env r.emoji r.users st false false with
    | Except.error er => Except.error er
    | Except.ok st1 => reactAll env rs st1

/-- The footnote block appended after the reaction pass
(DiscordLiveBackup.py lines 690-698): a header when either tally is
non-empty, one line per emoji of `unknown_reactions` (count of the master's
own mention rendered as an unknown-user count, other mentions listed), and
one line per emoji of `unknown_reactors` with its per-user count. -/
def reactionMetadata (master : BotIdentity) (st : ReactState) : String :=
  let header :=
    if st.unknownReactions.length > 0 || st.unknownReactors.length > 0 then
      "\n\n*__Unknown Reactions:__*"
    else ""
  let part1 := st.unknownReactions.foldl
    (fun acc p =>
      let cnt := p.2.count master.mention
      let known := p.2.filter (fun x => x != master.mention)
      acc ++ "\n*[" ++ p.1 ++ " -> " ++ String.intercalate ", " known ++ " " ++
        (if known.length > 0 && cnt > 0 then "+" else "") ++ " " ++
        (if cnt > 0 then toString cnt ++ " unknown user(s)" else "") ++ "]*")
    ""
  let part2 := st.unknownReactors.foldl
    (fun acc p =>
      acc ++ "\n*[" ++ p.1 ++ " -> +" ++ toString p.2 ++ " unknown user(s)]*")
    ""
  header ++ part1 ++ part2

/-- Embed restricted to what the send path reads and writes: the description
built from the message content and the footer set at line 625. -/
structure Embed where
  description : String
  footer : Option String
deriving DecidableEq

/-- Source message attributes read by `BackupBotMaster.__send` before the
network send. -/
structure SrcMessage where
  authorId : Nat
  authorName : String
  authorTag : String
  content : String
  embeds : List Embed

/-- Environment of the send path: roster and master for routing, and the
static `_clean` environment. -/
structure SendEnv where
  roster : List (Nat × BotIdentity)
  master : BotIdentity
  cenv : CleanEnv

/-- What `bot.send_message` is invoked with (DiscordLiveBackup.py lines
630-641): the acting identity, the text content, and the embeds. -/
structure SendOutcome where
  senderUid : Nat
  sentContent : String
  sentEmbeds : List Embed
deriving DecidableEq

/-- The pre-send half of `BackupBotMaster.__send` (DiscordLiveBackup.py lines
596-641): clean the content, substitute the zero-width space for empty
content, build the import embed only when `realtime` is false, route the
author, and set the author-attribution footer when the acting identity is
the master — dereferencing `imported_embed`, which is `None` in realtime
mode (line 625), raises `AttributeError`, modelled as `.error`. The `url`
variable is always the empty string (line 603; its only reassignment is
commented out), so a batch import sends an empty text content with the
timestamp embed in front of the source embeds. -/
def sendPrep (env : SendEnv) (m : SrcMessage) (realtime : Bool) :
    Except String SendOutcome :=
  match cleanContent env.cenv m.content with
  | Except.error e => Except.error e
  | Except.ok c0 =>
    let content := if c0 = "" then "\u200B" else c0
    let importedEmbed : Option Embed :=
      if realtime then none
      else
        let base : Embed := { description := content ++ "\n", footer := none }
        let base :=
          if (hasOccurStr "http://" content || hasOccurStr "https://" content)
              && m.embeds.length > 0 then
            (m.embeds.get? 0).getD base
          else base
        let base :=
          if content = "\u200B" && m.embeds.length > 0 then
            (m.embeds.get? 0).getD base
          else base
        some base
    let bot := routeIdentity env.roster env.master m.authorId
    if bot.uid = env.master.uid then
      match importedEmbed with
      | none => Except.error "AttributeError: NoneType object has no attribute set_footer"
      | some emb =>
        let note := "Message Author: @" ++ m.authorName ++ "#" ++ m.authorTag
        let emb2 := { emb with footer := some note }
        if realtime then
          Except.ok { senderUid := bot.uid, sentContent := content, sentEmbeds := m.embeds }
        else
          Except.ok { senderUid := bot.uid, sentContent := "", sentEmbeds := emb2 :: m.embeds }
    else
      if realtime then
        Except.ok { senderUid := bot.uid, sentContent := content, sentEmbeds := m.embeds }
      else
        Except.ok { senderUid := bot.uid, sentContent := "",
                    sentEmbeds := (match importedEmbed with
                                   | some e => [e]
                                   | none => []) ++ m.embeds }

/-- What the confirmation wait of `manual import` can yield: a timeout of
`wait_for` (60 s) or the next console message's content. -/
inductive ConsoleEvent where
  | timeout
  | received (content : String)

/-- Observable outcome of the confirmation segment: console messages posted,
number of messages replicated, and the exception (if any) escaping the
handler. -/
structure ImportOutcome where
  console : List String
  sends : Nat
  err : Option String
deriving DecidableEq

/-- The confirmation-and-import tail of the `manual import` command
(DiscordLiveBackup.py lines 498-515): `confirm` starts as `None`; a timeout
posts the cancellation notice inside the `except` clause but does not
return, so the following `confirm.content` dereferences `None` and raises
`AttributeError`; a received message other than exactly `"yes"` posts the
notice and returns; `"yes"` replicates every message of the history after
the starting point, oldest first, and reports the count. -/
def manualImportConfirm (ev : ConsoleEvent) (historyLen : Nat) : ImportOutcome :=
  let confirm : Option String :=
    match ev with
    | ConsoleEvent.timeout => none
    | ConsoleEvent.received c => some c
  let console0 : List String :=
    match ev with
    | ConsoleEvent.timeout => ["Cancelling manual import operation"]
    | ConsoleEvent.received _ => []
  match confirm with
  | none =>
    { console := console0, sends := 0,
      err := some "AttributeError: NoneType object has no attribute content" }
  | some c =>
    if c ≠ "yes" then
      { console := console0 ++ ["Cancelling manual import operation"],
        sends := 0, err := none }
    else
      { console := console0 ++
          ["Starting importing procedure...",
           "Importing successful. Total messages imported: " ++ toString historyLen],
        sends := historyLen, err := none }

/-- Names a Python call can fail to bind: `missingRequired params defaults
kwargs` lists the parameters of the callee that are neither supplied as a
keyword argument nor covered by a default (no positional arguments are
passed at the call site modelled here). -/
def missingRequired (params defaults kwargs : List String) : List String :=
  params.filter (fun p => !(kwargs.contains p || defaults.contains p))

/-- Python call binding for a keyword-only call site: `TypeError` as soon as
a required parameter is left unbound. -/
def pyCallInit (params defaults kwargs : List String) : Except String Unit :=
  match missingRequired params defaults kwargs with
  | [] => Except.ok ()
  | p :: _ =>
    Except.error ("TypeError: __init__ missing 1 required positional argument: " ++ p)

/-- Parameters of `ChannelStatsLogger.__init__` after `self`
(ChannelStatsLogger.py line 87): `master` and `channel_id`, no defaults. -/
def channelStatsLoggerInitParams : List String := ["master", "channel_id"]

/-- `ChannelStatsLogger.__init__` declares no default values. -/
def channelStatsLoggerInitDefaults : List String := []

/-- Keyword arguments of the construction call in `BackupBotMaster.on_ready`
(DiscordLiveBackup.py line 238): `ChannelStatsLogger(master=self)`. -/
def onReadyStatsLoggerKwargs : List String := ["master"]

/-- The tail of `BackupBotMaster.on_ready` from the stats-logger construction
(line 238) to the readiness announcement (line 269): the construction is
evaluated first, and only if it binds does the console receive
"Master Backup Bot is ready". -/
def masterOnReady : Except String (List String) :=
  match pyCallInit channelStatsLoggerInitParams channelStatsLoggerInitDefaults
      onReadyStatsLoggerKwargs with
  | Except.error e => Except.error e
  | Except.ok _ => Except.ok ["Master Backup Bot is ready"]

/-- The fixed stat-title set, keys of `STAT_TITLES`
(ChannelStatsLogger.py lines 8-11) in declaration order. -/
def STAT_TITLES_KEYS : List String := ["Total Messages Sent", "Total Attachments Sent"]

/-- The result of `dict.fromkeys(backup_channel_ids, \x7b\x7d)`
(ChannelStatsLogger.py line 43): every key is mapped to the same shared
dictionary object, so the model keeps the key list and one shared
association list (topic to thread id). -/
structure ThreadsMap where
  keys : List Nat
  shared : List (String × Nat)
deriving DecidableEq

/-- Lookup in the aliased map: any key of the list sees the shared
dictionary. -/
def tmGet (tm : ThreadsMap) (c : Nat) : Option (List (String × Nat)) :=
  if tm.keys.contains c then some tm.shared else none

/-- One active thread of the backup guild as returned by the REST scan. -/
structure ActiveThread where
  name : String
  parentId : Nat
  id : Nat

/-- The first stat title that is a name prefix of the thread name, embedding
`str(t["name"]).startswith(stat_titles)` plus the index computation of
ChannelStatsLogger.py line 47. -/
def statTitleOf (name : String) : Option String :=
  STAT_TITLES_KEYS.find? (fun s => leadsWith s.data name.data)

/-- The embedding of `fetch_all_stats_threads` (ChannelStatsLogger.py lines
34-50): start from the aliased `dict.fromkeys(ids, \x7b\x7d)` and record every
active thread whose name starts with a stat title and whose parent is a
monitored backup channel — each update lands in the single shared
dictionary. -/
def fetchAllStatsThreads (active : List ActiveThread) (ids : List Nat) : ThreadsMap :=
  { keys := ids,
    shared := active.foldl
      (fun sh t =>
        match statTitleOf t.name with
        | some cate => if ids.contains t.parentId then dUpdate sh cate t.id else sh
        | none => sh)
      [] }

/-- Accumulator of the setup double loop: the shared dictionary, the created
threads as (parent channel id, thread name, thread id), and the next fresh
thread id handed out by the platform. -/
structure SetupAcc where
  shared : List (String × Nat)
  created : List (Nat × String × Nat)
  fresh : Nat
deriving DecidableEq

/-- Inner loop of `ChannelStatsLogger.setup` (ChannelStatsLogger.py lines
131-136) for one backup channel: for every stat title missing from
`self.threads[b.id]` — which is the shared dictionary — create a thread
named `"<topic> - 0"` under this channel and record its id in the shared
dictionary. -/
def setupChannelStep (acc : SetupAcc) (b : Nat) : SetupAcc :=
  STAT_TITLES_KEYS.foldl
    (fun a s =>
      match dGet a.shared s with
      | some _ => a
      | none =>
        { shared := dUpdate a.shared s a.fresh,
          created := a.created ++ [(b, s ++ " - 0", a.fresh)],
          fresh := a.fresh + 1 })
    acc

/-- Result of `setup`: the thread map and the list of created stat threads. -/
structure SetupResult where
  threads : ThreadsMap
  created : List (Nat × String × Nat)
deriving DecidableEq

/-- The embedding of `ChannelStatsLogger.setup` (ChannelStatsLogger.py lines
125-136): fetch the aliased thread map, then run the channel loop;
`freshBase` is the first thread id the platform will assign. -/
def setupRun (active : List ActiveThread) (channelIds : List Nat)
    (freshBase : Nat) : SetupResult :=
  let tm := fetchAllStatsThreads active channelIds
  let acc := channelIds.foldl setupChannelStep
    { shared := tm.shared, created := [], fresh := freshBase }
  { threads := { keys := channelIds, shared := acc.shared }, created := acc.created }

/-- The embedding of `ChannelStatsLogger.update` (ChannelStatsLogger.py lines
96-115) acting on the platform state `titles` (thread id to current thread
name): assertions on the two lookups, and in increment mode the previous
value is `int(name.replace(f"<topic> - ", "", 1))` — an unparseable title
raises `ValueError` — before the thread is renamed to the new encoded
value. -/
def updateStat (tm : ThreadsMap) (channelId : Nat) (titles : List (Nat × String))
    (topic : String) (value : Int) (incre : Bool) :
    Except String (List (Nat × String)) :=
  match tmGet tm channelId with
  | none => Except.error "AssertionError: threads is None"
  | some shared =>
    match dGet shared topic with
    | none => Except.error "AssertionError: thread id is None"
    | some tid =>
      match dGet titles tid with
      | none => Except.error "NotFound: thread missing"
      | some name =>
        if incre then
          match pyIntParse (replaceFirst (topic ++ " - ").data [] name.data) with
          | Except.error e => Except.error e
          | Except.ok prev =>
            Except.ok (dUpdate titles tid (topic ++ " - " ++ toString (value + prev)))
        else Except.ok (dUpdate titles tid (topic ++ " - " ++ toString value))

/-- In-memory state of the logger: the platform's thread titles and the
delta cache. -/
structure StatsState where
  titles : List (Nat × String)
  cache : List (String × Int)
deriving DecidableEq

/-- The topic loop of `ChannelStatsLogger.log` (ChannelStatsLogger.py lines
144-146): flush topics in cache order through `updateStat`; the first
exception aborts the loop, keeping the titles renamed so far. -/
def flushTopics (tm : ThreadsMap) (cid : Nat) :
    List (String × Int) → List (Nat × String) → List (Nat × String) × Option String
  | [], ts => (ts, none)
  | (st, v) :: rest, ts =>
    match updateStat tm cid ts st v true with
    | Except.error e => (ts, some e)
    | Except.ok ts2 => flushTopics tm cid rest ts2

/-- The embedding of `ChannelStatsLogger.log` (ChannelStatsLogger.py lines
143-149): run the topic loop; the cache reset to
`dict.fromkeys(STAT_TITLES.keys(), 0)` on line 149 is reached only when no
topic raised, because an exception propagates out of `log` first. -/
def logRun (tm : ThreadsMap) (cid : Nat) (s : StatsState) :
    StatsState × Option String :=
  match flushTopics tm cid s.cache s.titles with
  | (ts, some e) => ({ titles := ts, cache := s.cache }, some e)
  | (ts, none) =>
    ({ titles := ts, cache := STAT_TITLES_KEYS.map (fun k => (k, (0 : Int))) }, none)

/-- Reaction scenario of the spec's property 3: no dedicated identities, a
master that can render only the placeholder, and the placeholder named as
the `unknown_emoji` created at startup. -/
def c1Env : ReactEnv :=
  ⟨[], ⟨0, "MasterBot", "<@0>"⟩, fun _ s => s == "unknown_emoji", "unknown_emoji"⟩

/-- Final reaction state of the scenario: master reacted once with the
placeholder, the failed-reaction tally holds the master's mention once, and
the per-user tally counts both unmapped reactors. -/
def c1FinalState : ReactState :=
  ⟨[0], [("customX", ["<@0>"])], [("customX", 2)], [(0, "unknown_emoji")]⟩

/-- Send environment with an empty roster: every author routes to the master. -/
def c2Env : SendEnv := ⟨[], ⟨0, "MasterBot", "<@0>"⟩, ⟨[], [], []⟩⟩

/-- A plain source message from an author without a dedicated proxy. -/
def c2Msg : SrcMessage := ⟨42, "alice", "1234", "hello", []⟩

/-- Outcome of the confirmation wait timing out: the cancellation notice is
posted, no message is replicated, and `confirm.content` raises. -/
def c4TimeoutOutcome : ImportOutcome :=
  ⟨["Cancelling manual import operation"], 0,
    some "AttributeError: NoneType object has no attribute content"⟩

/-- Outcome of a received confirmation other than "yes": clean cancellation. -/
def c4DeclinedOutcome : ImportOutcome :=
  ⟨["Cancelling manual import operation"], 0, none⟩

/-- Outcome of a received "yes" over a three-message history. -/
def c4ConfirmedOutcome : ImportOutcome :=
  ⟨["Starting importing procedure...",
    "Importing successful. Total messages imported: 3"], 3, none⟩

/-- Thread map of one monitored channel with both stat threads provisioned. -/
def c5Tm : ThreadsMap :=
  ⟨[1], [("Total Messages Sent", 11), ("Total Attachments Sent", 12)]⟩

/-- Thread map for the counter round-trip scenario. -/
def c6Tm : ThreadsMap :=
  ⟨[1], [("Total Messages Sent", 11), ("Total Attachments Sent", 12)]⟩

/-- Transform environment of a source community with no roles at all. -/
def c7EnvNull : CleanEnv := ⟨[], [], []⟩

/-- Transform environment where source role 5 is named "mods" and the backup
guild has a role of that name. -/
def c7EnvW : CleanEnv := ⟨[], [(5, "mods")], [("mods", "<@&77>")]⟩

/-- Transform environment exhibiting role-mention drift: source role 1 maps
by name to backup role 2, and source role 2 maps by name to backup role 3,
so the substituted output of one application is itself substitutable — and
backup role id 3 does not exist in the source community. -/
def c8Env : CleanEnv := ⟨[], [(1, "a"), (2, "b")], [("a", "<@&2>"), ("b", "<@&3>")]⟩

/-- Transform environment with one rostered user whose bot mention carries a
non-rostered user id. -/
def c8EnvW : CleanEnv := ⟨[(5, "<@99>")], [], []⟩

/-- A dedicated proxy identity for the routing witness. -/
def c10Bot : BotIdentity := ⟨500, "proxy5", "<@500>"⟩

/-- The master identity for the routing witness. -/
def c10Master : BotIdentity := ⟨0, "MasterBot", "<@0>"⟩

theorem replaceAllAuxId (pat repl : List Char) :
    ∀ fuel s, hasOccur pat s = false → replaceAllAux pat repl fuel s = s := by
  intro fuel
  induction fuel with
  | zero =>
    intro s _
    cases s with
    | nil => rfl
    | cons c cs => rfl
  | succ f ih =>
    intro s h
    cases s with
    | nil => rfl
    | cons c cs =>
      rw [hasOccur, Bool.or_eq_false_iff] at h
      simp only [replaceAllAux, h.1, Bool.false_and, Bool.false_eq_true, if_false]
      rw [ih cs h.2]

theorem neuterTagsId (s : List Char)
    (h1 : hasOccur "@here".data s = false)
    (h2 : hasOccur "@everyone".data s = false) : neuterTags s = s := by
  unfold neuterTags replaceAll
  rw [replaceAllAuxId "@here".data "@/here".data s.length s h1]
  rw [replaceAllAuxId "@everyone".data "@/everyone".data s.length s h2]

theorem cleanUsersGoId (bm : List (Nat × String)) :
    ∀ ms cont, ms.all (fun m => (dGet bm (uidOfMention m)).isNone) = true →
      cleanUsersGo bm ms cont = cont := by
  intro ms
  induction ms with
  | nil => intro cont _; rfl
  | cons m ms ih =>
    intro cont h
    rw [List.all_cons, Bool.and_eq_true] at h
    have h1 : dGet bm (uidOfMention m) = none := Option.isNone_iff_eq_none.mp h.1
    simp only [cleanUsersGo, h1]
    exact ih cont h.2

theorem cleanRolesGoTotal (tr : List (Nat × String)) (bm : List (String × String)) :
    ∀ ms cont, ms.all (fun m => (dGet tr (roleIdOfMention m)).isSome) = true →
      ∃ r, cleanRolesGo tr bm ms cont = Except.ok r := by
  intro ms
  induction ms with
  | nil => intro cont _; exact ⟨cont, rfl⟩
  | cons m ms ih =>
    intro cont h
    rw [List.all_cons, Bool.and_eq_true] at h
    obtain ⟨rname, hr⟩ := Option.isSome_iff_exists.mp h.1
    simp only [cleanRolesGo, hr]
    exact ih _ h.2

/-- Claim C10 (confirmed): the identity router of `__send` is the pure lookup
`self.bots.get(author_id, self)` — every roster id routes to its dedicated
identity and every other id routes to the master, deterministically and with
no error path. -/
theorem c10_confirmed (roster : List (Nat × BotIdentity)) (master : BotIdentity)
    (uid : Nat) :
    (∀ b, dGet roster uid = some b → routeIdentity roster master uid = b) ∧
    (dGet roster uid = none → routeIdentity roster master uid = master) := by
  constructor
  · intro b h
    unfold routeIdentity
    rw [h]
    rfl
  · intro h
    unfold routeIdentity
    rw [h]
    rfl

/-- Claim C10 witness: a rostered id returns its identity, an absent id
returns the master. -/
theorem c10_witness :
    routeIdentity [(5, c10Bot)] c10Master 5 = c10Bot ∧
    routeIdentity [(5, c10Bot)] c10Master 7 = c10Master :=
  ⟨(c10_confirmed [(5, c10Bot)] c10Master 5).1 c10Bot rfl,
   (c10_confirmed [(5, c10Bot)] c10Master 7).2 rfl⟩

/-- Claim C3 (confirmed): the construction `ChannelStatsLogger(master=self)`
performed by the master's `on_ready` leaves the required parameter
`channel_id` unbound and therefore raises `TypeError`, so the readiness
announcement that follows the construction is never posted and the counter
store is never reached in the shipped composition. -/
theorem c3_confirmed :
    pyCallInit channelStatsLoggerInitParams channelStatsLoggerInitDefaults
        onReadyStatsLoggerKwargs =
      Except.error "TypeError: __init__ missing 1 required positional argument: channel_id" ∧
    masterOnReady =
      Except.error "TypeError: __init__ missing 1 required positional argument: channel_id" :=
  ⟨rfl, rfl⟩

/-- Claim C4 (code bug): a timeout of the confirmation wait posts the
cancellation notice but then dereferences the still-`None` `confirm`
(`confirm.content`), raising `AttributeError` instead of aborting cleanly;
a received non-"yes" answer aborts cleanly with the notice and zero sends,
and "yes" replicates exactly the history length. -/
theorem c4_code_bug :
    manualImportConfirm ConsoleEvent.timeout 5 = c4TimeoutOutcome ∧
    manualImportConfirm (ConsoleEvent.received "no") 5 = c4DeclinedOutcome ∧
    manualImportConfirm (ConsoleEvent.received "yes") 3 = c4ConfirmedOutcome :=
  ⟨rfl, rfl, rfl⟩

/-- Claim C9 (code bug): `dict.fromkeys(backup_channel_ids, \x7b\x7d)` aliases one
shared dictionary for every channel, so with two monitored channels and no
pre-existing stat threads, `setup` creates stat threads only under the first
channel (two creations, not four) and both channel ids resolve to the same
topic-to-thread mapping instead of distinct per-channel threads. -/
theorem c9_code_bug :
    (setupRun [] [1, 2] 100).created =
      [(1, "Total Messages Sent - 0", 100), (1, "Total Attachments Sent - 0", 101)] ∧
    tmGet (setupRun [] [1, 2] 100).threads 1 = tmGet (setupRun [] [1, 2] 100).threads 2 ∧
    tmGet (setupRun [] [1, 2] 100).threads 2 =
      some [("Total Messages Sent", 100), ("Total Attachments Sent", 101)] :=
  ⟨rfl, rfl, rfl⟩

/-- Claim C2 (code bug): a message whose author has no dedicated proxy routes
to the master identity, and the attribution footer is written onto
`imported_embed`; in realtime mode that variable is `None`, so live
replication of an unmapped author's message raises `AttributeError` instead
of completing — while the batch-import path completes with the master as
sender and the author-attribution footer set. -/
theorem c2_code_bug :
    sendPrep c2Env c2Msg true =
      Except.error "AttributeError: NoneType object has no attribute set_footer" ∧
    sendPrep c2Env c2Msg false =
      Except.ok ⟨0, "", [⟨"hello\n", some "Message Author: @alice#1234"⟩]⟩ :=
  ⟨rfl, rfl⟩

/-- Claim C6 (confirmed): counter round-trip — starting from thread title
"Total Messages Sent - 7" with cached delta 3, a flush renames the thread to
"Total Messages Sent - 10" and resets the cache; a second flush with delta 0
re-reads 10, adds 0, and leaves the encoded value unchanged. -/
theorem c6_confirmed :
    logRun c6Tm 1
        ⟨[(11, "Total Messages Sent - 7"), (12, "Total Attachments Sent - 5")],
         [("Total Messages Sent", 3), ("Total Attachments Sent", 0)]⟩ =
      (⟨[(11, "Total Messages Sent - 10"), (12, "Total Attachments Sent - 5")],
        [("Total Messages Sent", 0), ("Total Attachments Sent", 0)]⟩, none) ∧
    logRun c6Tm 1
        ⟨[(11, "Total Messages Sent - 10"), (12, "Total Attachments Sent - 5")],
         [("Total Messages Sent", 0), ("Total Attachments Sent", 0)]⟩ =
      (⟨[(11, "Total Messages Sent - 10"), (12, "Total Attachments Sent - 5")],
        [("Total Messages Sent", 0), ("Total Attachments Sent", 0)]⟩, none) :=
  ⟨rfl, rfl⟩

theorem flushTopicsConsError (tm : ThreadsMap) (cid : Nat) (st : String) (v : Int)
    (rest : List (String × Int)) (ts : List (Nat × String)) (e : String)
    (hu : updateStat tm cid ts st v true = Except.error e) :
    flushTopics tm cid ((st, v) :: rest) ts = (ts, some e) := by
  simp [flushTopics, hu]

theorem flushTopicsConsOk (tm : ThreadsMap) (cid : Nat) (st : String) (v : Int)
    (rest : List (String × Int)) (ts ts2 : List (Nat × String))
    (hu : updateStat tm cid ts st v true = Except.ok ts2) :
    flushTopics tm cid ((st, v) :: rest) ts = flushTopics tm cid rest ts2 := by
  simp [flushTopics, hu]

theorem flushTopicsAppendOk (tm : ThreadsMap) (cid : Nat) :
    ∀ done ts ts1, flushTopics tm cid done ts = (ts1, none) →
      ∀ rest2, flushTopics tm cid (done ++ rest2) ts = flushTopics tm cid rest2 ts1 := by
  intro done
  induction done with
  | nil =>
    intro ts ts1 h rest2
    simp only [flushTopics, Prod.mk.injEq] at h
    rw [List.nil_append, h.1]
  | cons p done ih =>
    intro ts ts1 h rest2
    obtain ⟨st, v⟩ := p
    cases hu : updateStat tm cid ts st v true with
    | error e =>
      rw [flushTopicsConsError tm cid st v done ts e hu] at h
      simp at h
    | ok ts2 =>
      rw [flushTopicsConsOk tm cid st v done ts ts2 hu] at h
      rw [List.cons_append, flushTopicsConsOk tm cid st v (done ++ rest2) ts ts2 hu]
      exact ih ts2 ts1 h rest2

/-- Claim C5 counterexample: with the first topic's thread title unparseable
("garbage") and a non-zero delta cached for the second topic, the flush
aborts at the first topic — the second topic's thread keeps its old title
even though its delta is 4, and the cache is not reset. The claim's
assertion that other topics proceed and the cache resets regardless is
therefore false on the code. -/
theorem c5_counterexample :
    logRun c5Tm 1
        ⟨[(11, "garbage"), (12, "Total Attachments Sent - 5")],
         [("Total Messages Sent", 3), ("Total Attachments Sent", 4)]⟩ =
      (⟨[(11, "garbage"), (12, "Total Attachments Sent - 5")],
        [("Total Messages Sent", 3), ("Total Attachments Sent", 4)]⟩,
       some "ValueError: invalid literal for int() with base 10") :=
  rfl

/-- Claim C5 (corrected): a parse failure while flushing a topic aborts the
entire flush — topics already flushed keep their new titles, the failing
topic and every later topic are not renamed, and the delta cache is not
reset (every delta is retained). -/
theorem c5_amended (tm : ThreadsMap) (cid : Nat) (done : List (String × Int))
    (ts ts1 : List (Nat × String)) (st : String) (v : Int)
    (rest : List (String × Int)) (e : String)
    (hdone : flushTopics tm cid done ts = (ts1, none))
    (hfail : updateStat tm cid ts1 st v true = Except.error e) :
    logRun tm cid ⟨ts, done ++ (st, v) :: rest⟩ =
      (⟨ts1, done ++ (st, v) :: rest⟩, some e) := by
  have h1 := flushTopicsAppendOk tm cid done ts ts1 hdone ((st, v) :: rest)
  have h2 := flushTopicsConsError tm cid st v rest ts1 e hfail
  simp [logRun, h1, h2]

/-- Claim C5 witness: the first topic flushes (7 becomes 10), the second
topic's unparseable title aborts the flush, and the whole cache survives. -/
theorem c5_amended_witness :
    logRun c5Tm 1
        ⟨[(11, "Total Messages Sent - 7"), (12, "garbage")],
         [("Total Messages Sent", 3), ("Total Attachments Sent", 4)]⟩ =
      (⟨[(11, "Total Messages Sent - 10"), (12, "garbage")],
        [("Total Messages Sent", 3), ("Total Attachments Sent", 4)]⟩,
       some "ValueError: invalid literal for int() with base 10") :=
  c5_amended c5Tm 1 [("Total Messages Sent", 3)]
    [(11, "Total Messages Sent - 7"), (12, "garbage")]
    [(11, "Total Messages Sent - 10"), (12, "garbage")]
    "Total Attachments Sent" 4 []
    "ValueError: invalid literal for int() with base 10" rfl rfl

/-- Claim C7 counterexample: a role-mention token whose role id does not
resolve in the source community makes `_clean` raise `AttributeError`
(`get_role` returns `None`, then `.name` is read), so the transform is not
total. -/
theorem c7_counterexample :
    cleanContent c7EnvNull "<@&5>" =
      Except.error "AttributeError: NoneType object has no attribute name" ∧
    isOkE (cleanContent c7EnvNull "<@&5>") = false :=
  ⟨rfl, rfl⟩

/-- Claim C7 (corrected): the transform returns a string without raising for
every input whose role-mention tokens (as found after user-mention
substitution) all carry role ids that resolve in the source community —
malformed mention syntax and unmapped user mentions are left as literal
text; the sole raising path is a role-mention id unknown to the source
guild. -/
theorem c7_amended (env : CleanEnv) (x : String)
    (h : (findallRole (cleanUsersStage env x)).all
        (fun m => (dGet env.targetRoles (roleIdOfMention m)).isSome) = true) :
    ∃ out, cleanContent env x = Except.ok out := by
  unfold cleanContent cleanRolesStage
  obtain ⟨r, hr⟩ := cleanRolesGoTotal env.targetRoles env.backupRoleMentions
    (findallRole (cleanUsersStage env x)) (cleanUsersStage env x) h
  rw [hr]
  exact ⟨String.mk (neuterTags r), rfl⟩

/-- Claim C7 witness: an input with a resolvable role mention, a malformed
token and an unmapped user mention satisfies the hypothesis and cleans
without raising. -/
theorem c7_amended_witness :
    ((findallRole (cleanUsersStage c7EnvW "ping <@&5> and <@9> <@&bad> now")).all
        (fun m => (dGet c7EnvW.targetRoles (roleIdOfMention m)).isSome) = true) ∧
    (∃ out, cleanContent c7EnvW "ping <@&5> and <@9> <@&bad> now" = Except.ok out) :=
  ⟨by decide, c7_amended c7EnvW "ping <@&5> and <@9> <@&bad> now" (by decide)⟩

/-- Claim C8 counterexample: "<@&2>" is itself the transform's output on
"<@&1>" (tags neutered, mentions substituted), yet applying the transform to
it substitutes again ("<@&3>"), and a further application raises — so
transform(transform(x)) differs from transform(x) on an already-substituted
input. -/
theorem c8_counterexample :
    cleanContent c8Env "<@&1>" = Except.ok "<@&2>" ∧
    cleanContent c8Env "<@&2>" = Except.ok "<@&3>" ∧
    Except.bind (cleanContent c8Env "<@&2>") (cleanContent c8Env) =
      Except.error "AttributeError: NoneType object has no attribute name" ∧
    isOkE (Except.bind (cleanContent c8Env "<@&2>") (cleanContent c8Env)) ≠
      isOkE (cleanContent c8Env "<@&2>") := by
  refine ⟨rfl, rfl, rfl, ?_⟩
  decide

/-- Claim C8 (corrected): the transform is idempotent on inputs that are
fixed points of all three passes — no user-mention token with a rostered
id, no role-mention token at all, and no raw broadcast tag: on such input
the transform returns it unchanged, hence reapplication changes nothing.
Inputs containing role-mention tokens are excluded because a substituted
backup role mention need not resolve in the source community, so a second
application can substitute further or raise. -/
theorem c8_amended (env : CleanEnv) (x : String)
    (h1 : (findallUser x.data).all
        (fun m => (dGet env.botMentions (uidOfMention m)).isNone) = true)
    (h2 : findallRole x.data = [])
    (h3 : hasOccur "@here".data x.data = false)
    (h4 : hasOccur "@everyone".data x.data = false) :
    cleanContent env x = Except.ok x ∧
      Except.bind (cleanContent env x) (cleanContent env) = cleanContent env x := by
  have hu : cleanUsersStage env x = x.data := by
    unfold cleanUsersStage
    exact cleanUsersGoId env.botMentions (findallUser x.data) x.data h1
  have hfirst : cleanContent env x = Except.ok x := by
    unfold cleanContent cleanRolesStage
    rw [hu, h2]
    simp only [cleanRolesGo]
    rw [neuterTagsId x.data h3 h4]
  refine ⟨hfirst, ?_⟩
  rw [hfirst]
  exact hfirst

/-- Claim C8 witness: an already-processed input (unmapped mention, neutered
tag, no role tokens) satisfies the hypotheses and is a fixed point of the
transform. -/
theorem c8_amended_witness :
    ((findallUser "hello <@7> @/here".data).all
        (fun m => (dGet c8EnvW.botMentions (uidOfMention m)).isNone) = true) ∧
    findallRole "hello <@7> @/here".data = [] ∧
    hasOccur "@here".data "hello <@7> @/here".data = false ∧
    hasOccur "@everyone".data "hello <@7> @/here".data = false ∧
    (cleanContent c8EnvW "hello <@7> @/here" = Except.ok "hello <@7> @/here" ∧
      Except.bind (cleanContent c8EnvW "hello <@7> @/here") (cleanContent c8EnvW) =
        cleanContent c8EnvW "hello <@7> @/here") :=
  ⟨by decide, by decide, by decide, by decide,
   c8_amended c8EnvW "hello <@7> @/here" (by decide) (by decide) (by decide) (by decide)⟩

/-- Claim C1 counterexample: one custom emoji no identity can render,
applied by two unmapped users — the pass does add exactly one placeholder
reaction by the master, but the appended footnote lists the emoji twice:
once with an unknown-user count of 1 (from the per-identity-deduplicated
`unknown_reactions` tally) and once with "+2 unknown user(s)" (from the
`unknown_reactors` tally, which is bumped once per unmapped user, not per
identity) — so the footnote does show a count of 2 for that emoji, refuting
"count of 1, not 2". -/
theorem c1_counterexample :
    reactAll c1Env [⟨"customX", [101, 102]⟩] initReactState = Except.ok c1FinalState ∧
    reactionMetadata c1Env.master c1FinalState =
      "\n\n*__Unknown Reactions:__*\n*[customX ->   1 unknown user(s)]*\n*[customX -> +2 unknown user(s)]*" ∧
    dGet c1FinalState.unknownReactors "customX" ≠ some 1 := by
  refine ⟨rfl, rfl, ?_⟩
  decide

/-- Claim C1 (corrected): for a message with one custom-emoji reaction that
the master cannot render, applied by two users with no dedicated proxy, the
pass adds exactly one reaction — the placeholder, by the master — records
the master's mention once in `unknown_reactions` (deduplicated per
identity), and counts 2 in `unknown_reactors` (one per unmapped user); the
footnote therefore carries one line with count 1 and one line with count 2
for that emoji. -/
theorem c1_amended (roster : List (Nat × BotIdentity)) (master : BotIdentity)
    (canR : Nat → String → Bool) (ph e : String) (u1 u2 : Nat)
    (h1 : dGet roster u1 = none) (h2 : dGet roster u2 = none)
    (h3 : canR master.uid e = false) (h4 : canR master.uid ph = true) :
    reactAll ⟨roster, master, canR, ph⟩ [⟨e, [u1, u2]⟩] initReactState =
      Except.ok ⟨[master.uid], [(e, [master.mention])], [(e, 2)], [(master.uid, ph)]⟩ := by
  simp [reactAll, reactUsers, reactUserStep, attemptReaction, routeIdentity,
        initReactState, dGet, dUpdate, List.contains, h1, h2, h3, h4]

/-- Claim C1 witness: the amended statement at the concrete scenario. -/
theorem c1_amended_witness :
    reactAll ⟨[], ⟨0, "MasterBot", "<@0>"⟩, fun _ s => s == "unknown_emoji", "unknown_emoji"⟩
        [⟨"customX", [101, 102]⟩] initReactState =
      Except.ok ⟨[0], [("customX", ["<@0>"])], [("customX", 2)], [(0, "unknown_emoji")]⟩ :=
  c1_amended [] ⟨0, "MasterBot", "<@0>"⟩ (fun _ s => s == "unknown_emoji") "unknown_emoji"
    "customX" 101 102 rfl rfl rfl rfl
